import Mathlib

/-
Shallow embedding of the three Blender export scripts of this repository:
src/export_env.py, src/export_rt_scene.py and src/scripts/export_char.py.

The host application's data (bpy.data.objects, bpy.data.collections,
bpy.data.actions, bpy.context.scene.objects) is modelled by the BlendFile
structure below.  Each script is a straight-line function from the loaded
file and an oracle (which host-API calls raise an exception, whether the
input/output paths exist, the byte size reported for the written GLB file)
to a run result: a trace of observable events plus the process outcome.
Exceptions that escape the script are distinguished from exceptions the
script catches; sys.exit(n) is modelled as a normal termination with code n
(SystemExit is not caught by an `except Exception` handler).
-/

namespace BasedGuide

/-- The `type` attribute of a Blender object, restricted to the enum values
the scripts compare against. -/
inductive ObjType where
  | MESH
  | LIGHT
  | CAMERA
  | ARMATURE
  | OTHER
deriving DecidableEq

/-- The `type` attribute of a Blender modifier. -/
inductive ModifierType where
  | ARMATURE
  | OTHER
deriving DecidableEq

/-- A Blender modifier, as far as the scripts inspect it. -/
structure Modifier where
  type : ModifierType
deriving DecidableEq

/-- A Blender object (an element of bpy.data.objects).  `library` is none
for local objects and some path for library-linked objects; `in_scene`
records membership in bpy.context.scene.objects. -/
structure Obj where
  name : String
  type : ObjType
  hide_viewport : Bool
  hide_render : Bool
  modifiers : List Modifier
  library : Option String
  in_scene : Bool
deriving DecidableEq

/-- A Blender collection (an element of bpy.data.collections). -/
structure Collection where
  name : String
  hide_viewport : Bool
  hide_render : Bool
deriving DecidableEq

/-- The loaded .blend file: flat object list, collection list, and the
names of the animation actions (bpy.data.actions). -/
structure BlendFile where
  objects : List Obj
  collections : List Collection
  actions : List String
deriving DecidableEq

/-- The keyword arguments the scripts pass to bpy.ops.export_scene.gltf.
Fields passed by only some of the scripts are Option-typed (none means the
script did not pass that keyword). -/
structure GltfConfig where
  filepath : String
  export_format : String
  use_selection : Bool
  use_visible : Bool
  use_active_collection : Option Bool
  export_cameras : Bool
  export_lights : Bool
  export_yup : Bool
  export_apply : Bool
  export_texcoords : Bool
  export_normals : Bool
  export_tangents : Bool
  export_animations : Bool
  export_anim_single_armature : Option Bool
  export_nla_strips : Option Bool
  export_def_bones : Option Bool
  export_optimize_animation_size : Option Bool
  export_skins : Bool
  export_all_influences : Option Bool
  export_draco_mesh_compression_enable : Bool
deriving DecidableEq

/-- Observable events of a script run. -/
inductive Event where
  | readHome
  | loadFile (path : String)
  | printCount (label : String) (n : Nat)
  | hideCollections (hidden : List String)
  | removeOrphanEvt (removed : Nat)
  | hideLinkedDup (hidden : List String)
  | makeDir (path : String)
  | gltfExport (cfg : GltfConfig)
  | sizeReadout (mb : Rat) (decimals : Nat)
  | printErr (msg : String)
deriving DecidableEq

/-- How the process ends: sys.exit / normal fall-through with an exit code,
or an exception escaping the script (the interpreter then prints the
traceback and the process exits with status 1). -/
inductive Outcome where
  | exited (code : Nat)
  | uncaughtEsc
deriving DecidableEq

/-- The exit status the operating system observes. -/
def Outcome.exitStatus : Outcome → Nat
  | .exited c => c
  | .uncaughtEsc => 1

/-- Result of a whole script run. -/
structure RunResult where
  trace : List Event
  outcome : Outcome
deriving DecidableEq

/-- Outcome of a script body before the `__main__` exception wrapper:
normal return, sys.exit(c), or a raised exception. -/
inductive BodyOut where
  | normal
  | sysExit (c : Nat)
  | raisedExc
deriving DecidableEq

/-- The `if __name__ == "__main__":` wrapper of export_rt_scene.py and
export_char.py: a raised exception is caught, an error is printed and the
process exits 1; sys.exit and normal return pass through. -/
def guardedMain (b : List Event × BodyOut) : RunResult :=
  match b.2 with
  | .normal => { trace := b.1, outcome := .exited 0 }
  | .sysExit c => { trace := b.1, outcome := .exited c }
  | .raisedExc => { trace := b.1 ++ [Event.printErr "Unexpected error"], outcome := .exited 1 }

/- Path constants from the scripts' configuration sections. -/

def PROJECT_DIR : String := "/Users/amaro/Documents/dev/based.guide_realtime"

def ENV_FILE : String := "/Users/amaro/Library/CloudStorage/GoogleDrive-amaro@amarokoberle.com/My Drive/based.guide/3D/assets/environments/ApeEscapeOffice/ENV_ApeEscapeOffice_MASTER.blend"

def ENV_OUTPUT_GLB : String := PROJECT_DIR ++ "/public/ENV_ApeEscapeOffice.glb"

def REALTIME_DIR : String := "/Users/amaro/Library/CloudStorage/GoogleDrive-amaro@amarokoberle.com/My Drive/based.guide/3D/realtime"

def RT_SCENE_FILE : String := REALTIME_DIR ++ "/RT_SCENE_ApeEscape_MASTER.blend"

def RT_OUTPUT_GLB : String := PROJECT_DIR ++ "/public/RT_SCENE_ApeEscape.glb"

def RT_OUTPUT_DIR : String := PROJECT_DIR ++ "/public"

def CHAR_FILE : String := "/Users/amaro/Library/CloudStorage/GoogleDrive-amaro@amarokoberle.com/My Drive/based.guide/3D/assets/characters/MrProBonobo/CHAR_MrProBonobo_MASTER.blend"

def CHAR_OUTPUT_GLB : String := PROJECT_DIR ++ "/public/CHAR_MrProBonobo.glb"

/- String helpers mirroring the Python operations used by the scripts. -/

/-- All suffixes of a character list (including the list itself and []). -/
def strTails : List Char → List (List Char)
  | [] => [[]]
  | c :: cs => (c :: cs) :: strTails cs

/-- Python's substring test `needle in hay`. -/
def pyIn (needle hay : String) : Bool :=
  (strTails hay.data).any (fun t => needle.data.isPrefixOf t)

/-- Python's `s.upper()` (per-character uppercasing). -/
def pyUpper (s : String) : String := String.mk (s.data.map Char.toUpper)

/-- Python's `s.startswith(pre)`. -/
def pyStartsWith (s pre : String) : Bool := pre.data.isPrefixOf s.data

/-- Python's `s.split('.')[0]`: the part of the name before the first dot. -/
def baseNameOf (s : String) : String := String.mk (s.data.takeWhile (fun c => c != '.'))

/- Object classification filters used by the scripts. -/

def isMesh (ob : Obj) : Bool := ob.type == ObjType.MESH

def isLight (ob : Obj) : Bool := ob.type == ObjType.LIGHT

def isCamera (ob : Obj) : Bool := ob.type == ObjType.CAMERA

def isArmatureObj (ob : Obj) : Bool := ob.type == ObjType.ARMATURE

/-- `any(m.type == 'ARMATURE' for m in obj.modifiers)`. -/
def hasArmatureMod (ob : Obj) : Bool :=
  ob.modifiers.any (fun m => m.type == ModifierType.ARMATURE)

/-- export_char.py line 28: `obj.type == 'MESH' and obj.modifiers and
any(m.type == 'ARMATURE' for m in obj.modifiers)`. -/
def charIsSkinned (ob : Obj) : Bool :=
  isMesh ob && !ob.modifiers.isEmpty && hasArmatureMod ob

/-- export_rt_scene.py line 103: same test with an additional
`not obj.hide_viewport`. -/
def rtIsSkinned (ob : Obj) : Bool :=
  isMesh ob && !ob.hide_viewport && !ob.modifiers.isEmpty && hasArmatureMod ob

/- Collection hiding steps. -/

/-- export_env.py line 45: `"WORKING" in collection.name.upper()`. -/
def envWorkingMatch (name : String) : Bool := pyIn "WORKING" (pyUpper name)

/-- export_rt_scene.py line 39: `"Working" in collection.name`. -/
def rtWorkingMatch (name : String) : Bool := pyIn "Working" name

/-- export_env.py lines 44-49, effect on one collection. -/
def hideEnvStep (c : Collection) : Collection :=
  if envWorkingMatch c.name then { c with hide_viewport := true, hide_render := true } else c

/-- export_env.py lines 44-49, effect on bpy.data.collections. -/
def hideEnvCollections (cols : List Collection) : List Collection := cols.map hideEnvStep

/-- Names collected in export_env.py's hidden_collections list. -/
def envHiddenNames (cols : List Collection) : List String :=
  (cols.filter (fun c => envWorkingMatch c.name)).map Collection.name

/-- export_rt_scene.py lines 38-43, effect on one collection. -/
def hideRtStep (c : Collection) : Collection :=
  if rtWorkingMatch c.name then { c with hide_viewport := true, hide_render := true } else c

/-- export_rt_scene.py lines 38-43, effect on bpy.data.collections. -/
def hideRtCollections (cols : List Collection) : List Collection := cols.map hideRtStep

/-- Names of the collections export_rt_scene.py hides. -/
def rtHiddenNames (cols : List Collection) : List String :=
  (cols.filter (fun c => rtWorkingMatch c.name)).map Collection.name

/- Orphaned-duplicate removal, export_rt_scene.py lines 86-95. -/

/-- `{obj.name for obj in bpy.context.scene.objects}`. -/
def sceneNamesOf (objs : List Obj) : List String :=
  (objs.filter (fun ob => ob.in_scene)).map Obj.name

/-- The generator's condition inside `any(...)` at line 92:
`o.name.startswith(base_name) and o.name in scene_object_names`. -/
def orphanWitness (base : String) (scene : List String) (ob : Obj) : Bool :=
  pyStartsWith ob.name base && decide (ob.name ∈ scene)

/-- One iteration of the `for obj in list(bpy.data.objects)` loop at lines
88-95: `cur` is the current bpy.data.objects, `ob` the snapshot element. -/
def orphanStep (scene : List String) (cur : List Obj) (ob : Obj) : List Obj :=
  if ob.name ∈ scene then cur
  else if cur.any (orphanWitness (baseNameOf ob.name) scene) then cur.erase ob
  else cur

/-- The whole removal loop: fold over a snapshot of the object list while
mutating the object list itself. -/
def removeOrphanDup (scene : List String) (objs : List Obj) : List Obj :=
  objs.foldl (orphanStep scene) objs

/-- The static removal condition over the original object list (to be
proved equivalent to the stateful loop). -/
def orphanCond (scene : List String) (objs : List Obj) (ob : Obj) : Bool :=
  !(decide (ob.name ∈ scene)) && objs.any (orphanWitness (baseNameOf ob.name) scene)

/- Linked-duplicate hiding, export_rt_scene.py lines 150-162. -/

/-- Keys of `override_objects = {obj.name: obj for obj in all_objects if
obj.library is None}`. -/
def overrideNames (objs : List Obj) : List String :=
  (objs.filter (fun ob => ob.library == none)).map Obj.name

/-- Lines 153-158, effect on one object: hide a library-linked object when
a local object of the same name exists. -/
def hideLinkedStep (ov : List String) (ob : Obj) : Obj :=
  if ob.library != none && decide (ob.name ∈ ov) then
    { ob with hide_viewport := true, hide_render := true }
  else ob

/-- Lines 153-158, effect on the object list. -/
def hideLinkedDups (objs : List Obj) : List Obj :=
  objs.map (hideLinkedStep (overrideNames objs))

/-- The names collected in hidden_for_export. -/
def hiddenLinkedNames (objs : List Obj) : List String :=
  (objs.filter (fun ob => ob.library != none && decide (ob.name ∈ overrideNames objs))).map Obj.name

/-- `os.path.getsize(...) / (1024 * 1024)`, modelled exactly over ℚ. -/
def mbOfBytes (n : Nat) : Rat := (n : Rat) / (1024 * 1024)

/- Export configuration records (the literal keyword arguments). -/

/-- export_env.py lines 63-78. -/
def envGltfConfig : GltfConfig where
  filepath := ENV_OUTPUT_GLB
  export_format := "GLB"
  use_selection := false
  use_visible := true
  use_active_collection := none
  export_cameras := false
  export_lights := true
  export_yup := true
  export_apply := true
  export_texcoords := true
  export_normals := true
  export_tangents := true
  export_animations := false
  export_anim_single_armature := none
  export_nla_strips := none
  export_def_bones := none
  export_optimize_animation_size := none
  export_skins := false
  export_all_influences := none
  export_draco_mesh_compression_enable := false

/-- export_rt_scene.py lines 177-213. -/
def rtGltfConfig : GltfConfig where
  filepath := RT_OUTPUT_GLB
  export_format := "GLB"
  use_selection := false
  use_visible := true
  use_active_collection := some false
  export_cameras := true
  export_lights := true
  export_yup := true
  export_apply := true
  export_texcoords := true
  export_normals := true
  export_tangents := true
  export_animations := true
  export_anim_single_armature := some true
  export_nla_strips := some true
  export_def_bones := some true
  export_optimize_animation_size := some true
  export_skins := true
  export_all_influences := some false
  export_draco_mesh_compression_enable := false

/-- src/scripts/export_char.py lines 52-87. -/
def charGltfConfig : GltfConfig where
  filepath := CHAR_OUTPUT_GLB
  export_format := "GLB"
  use_selection := false
  use_visible := true
  use_active_collection := some false
  export_cameras := false
  export_lights := false
  export_yup := true
  export_apply := true
  export_texcoords := true
  export_normals := true
  export_tangents := true
  export_animations := true
  export_anim_single_armature := some true
  export_nla_strips := some true
  export_def_bones := some true
  export_optimize_animation_size := some true
  export_skins := true
  export_all_influences := some false
  export_draco_mesh_compression_enable := false

/- Oracles: which host calls raise, path existence, reported file size. -/

structure EnvOracle where
  loadRaises : Bool
  exportRaises : Bool
  getsizeRaises : Bool
  sizeBytes : Nat
deriving DecidableEq

structure RtOracle where
  readHomeRaises : Bool
  fileExists : Bool
  loadRaises : Bool
  mkdirRaises : Bool
  outputDirExists : Bool
  exportRaises : Bool
  getsizeRaises : Bool
  sizeBytes : Nat
deriving DecidableEq

structure CharOracle where
  loadRaises : Bool
  exportRaises : Bool
  getsizeRaises : Bool
  sizeBytes : Nat
deriving DecidableEq

/-- src/export_env.py, export_environment() and its `__main__` block.
There is no blanket handler: only the load call (lines 17-22) and the
export call (lines 62-83) are wrapped in try/except; an exception raised
anywhere else (here: at the os.path.getsize call, line 86) escapes. -/
def export_environment (f : BlendFile) (o : EnvOracle) : RunResult :=
  if o.loadRaises then
    { trace := [Event.loadFile ENV_FILE, Event.printErr "Error loading file"],
      outcome := .exited 1 }
  else
    let all_objects := f.objects
    let meshes := all_objects.filter isMesh
    let lights := all_objects.filter isLight
    let cameras := all_objects.filter isCamera
    let t1 : List Event := [Event.loadFile ENV_FILE,
      Event.printCount "Meshes" meshes.length,
      Event.printCount "Lights" lights.length,
      Event.printCount "Cameras" cameras.length]
    let t2 := t1 ++ [Event.hideCollections (envHiddenNames f.collections)]
    let export_objects := all_objects.filter (fun ob => !ob.hide_viewport && !ob.hide_render)
    let export_meshes := export_objects.filter isMesh
    let t3 := t2 ++ [Event.printCount "Will export objects" export_objects.length,
      Event.printCount "Will export meshes" export_meshes.length]
    let t4 := t3 ++ [Event.gltfExport envGltfConfig]
    if o.exportRaises then
      { trace := t4 ++ [Event.printErr "Export failed"], outcome := .exited 1 }
    else if o.getsizeRaises then
      { trace := t4, outcome := .uncaughtEsc }
    else
      { trace := t4 ++ [Event.sizeReadout (mbOfBytes o.sizeBytes) 2,
          Event.printCount "Exported meshes" export_meshes.length,
          Event.printCount "Exported lights" lights.length],
        outcome := .exited 0 }

/-- src/export_rt_scene.py, body of export_rt_scene(). -/
def rtBody (f : BlendFile) (o : RtOracle) : List Event × BodyOut :=
  if o.readHomeRaises then ([Event.readHome], BodyOut.raisedExc)
  else if !o.fileExists then
    ([Event.readHome, Event.printErr "RT_SCENE file not found"], BodyOut.sysExit 1)
  else if o.loadRaises then
    ([Event.readHome, Event.loadFile RT_SCENE_FILE], BodyOut.raisedExc)
  else
    let t2 : List Event := [Event.readHome, Event.loadFile RT_SCENE_FILE,
      Event.hideCollections (rtHiddenNames f.collections)]
    let linked_objects := f.objects.filter (fun ob => ob.library != none)
    let t3 := if linked_objects.isEmpty then t2
      else t2 ++ [Event.printCount "Linked objects" linked_objects.length]
    let objs1 := removeOrphanDup (sceneNamesOf f.objects) f.objects
    let t4 := t3 ++ [Event.removeOrphanEvt (f.objects.length - objs1.length)]
    let skinned := objs1.filter rtIsSkinned
    let cameras := objs1.filter (fun ob => isCamera ob && !ob.hide_viewport)
    let armatures := objs1.filter (fun ob => isArmatureObj ob && !ob.hide_viewport)
    let meshes := objs1.filter (fun ob => isMesh ob && !ob.hide_viewport)
    let t5 := t4 ++ [Event.printCount "SkinnedMeshes" skinned.length,
      Event.printCount "Cameras" cameras.length,
      Event.printCount "Armatures" armatures.length,
      Event.printCount "Total meshes" meshes.length,
      Event.printCount "Animations" f.actions.length]
    let objs2 := hideLinkedDups objs1
    let t6 := t5 ++ [Event.hideLinkedDup (hiddenLinkedNames objs1)]
    let export_objects := objs2.filter (fun ob => !ob.hide_viewport)
    let t7 := t6 ++ [Event.printCount "Will export objects" export_objects.length]
    if !o.outputDirExists && o.mkdirRaises then (t7, BodyOut.raisedExc)
    else
      let t8 := if o.outputDirExists then t7 else t7 ++ [Event.makeDir RT_OUTPUT_DIR]
      let t9 := t8 ++ [Event.gltfExport rtGltfConfig]
      if o.exportRaises then (t9 ++ [Event.printErr "Export failed"], BodyOut.sysExit 1)
      else if o.getsizeRaises then (t9, BodyOut.raisedExc)
      else
        let final_skinned := export_objects.filter
          (fun ob => isMesh ob && !ob.modifiers.isEmpty && hasArmatureMod ob)
        let final_armatures := export_objects.filter isArmatureObj
        (t9 ++ [Event.sizeReadout (mbOfBytes o.sizeBytes) 2,
          Event.printCount "Exported objects" export_objects.length,
          Event.printCount "Exported skinned meshes" final_skinned.length,
          Event.printCount "Exported armatures" final_armatures.length,
          Event.printCount "Exported cameras" cameras.length,
          Event.printCount "Exported animations" f.actions.length], BodyOut.normal)

/-- src/export_rt_scene.py with its `__main__` blanket handler. -/
def export_rt_scene (f : BlendFile) (o : RtOracle) : RunResult :=
  guardedMain (rtBody f o)

/-- src/scripts/export_char.py, body of export_character(). -/
def charBody (f : BlendFile) (o : CharOracle) : List Event × BodyOut :=
  if o.loadRaises then ([Event.loadFile CHAR_FILE], BodyOut.raisedExc)
  else
    let skinned := f.objects.filter charIsSkinned
    let armatures := f.objects.filter isArmatureObj
    let t1 : List Event := [Event.loadFile CHAR_FILE,
      Event.printCount "SkinnedMeshes" skinned.length,
      Event.printCount "Armatures" armatures.length,
      Event.printCount "Animations" f.actions.length]
    if skinned.length = 0 then
      (t1 ++ [Event.printErr "No skinned meshes found"], BodyOut.sysExit 1)
    else
      let t2 := t1 ++ [Event.gltfExport charGltfConfig]
      if o.exportRaises then (t2 ++ [Event.printErr "Export failed"], BodyOut.sysExit 1)
      else if o.getsizeRaises then (t2, BodyOut.raisedExc)
      else
        (t2 ++ [Event.sizeReadout (mbOfBytes o.sizeBytes) 2,
          Event.printCount "Exported skinned meshes" skinned.length,
          Event.printCount "Exported armatures" armatures.length,
          Event.printCount "Exported animations" f.actions.length], BodyOut.normal)

/-- src/scripts/export_char.py with its `__main__` blanket handler. -/
def export_character (f : BlendFile) (o : CharOracle) : RunResult :=
  guardedMain (charBody f o)

/- Trace observation helpers. -/

def isCountEvt : Event → Bool
  | .printCount _ _ => true
  | _ => false

def isHideColEvt : Event → Bool
  | .hideCollections _ => true
  | _ => false

def isExportEvt : Event → Bool
  | .gltfExport _ => true
  | _ => false

def isSizeEvt : Event → Bool
  | .sizeReadout _ _ => true
  | _ => false

def isLoadEvt : Event → Bool
  | .loadFile _ => true
  | _ => false

def isErrEvt : Event → Bool
  | .printErr _ => true
  | _ => false

def isWillExportEvt : Event → Bool
  | .printCount l _ => l == "Will export objects" || l == "Will export meshes"
  | _ => false

/-- All printCount events of a trace, in order. -/
def countEvents (t : List Event) : List Event := t.filter isCountEvt

/-- The configurations of all gltfExport events of a trace, in order. -/
def exportEvents (t : List Event) : List GltfConfig :=
  t.filterMap (fun e => match e with | .gltfExport c => some c | _ => none)

/- Concrete inputs used by counterexamples. -/

/-- A file with one "Working" collection and nothing else. -/
def rtDemoFile : BlendFile where
  objects := []
  collections := [{ name := "Working", hide_viewport := false, hide_render := false }]
  actions := []

/-- A clean oracle for export_rt_scene: nothing raises, paths exist. -/
def rtDemoOrc : RtOracle where
  readHomeRaises := false
  fileExists := true
  loadRaises := false
  mkdirRaises := false
  outputDirExists := true
  exportRaises := false
  getsizeRaises := false
  sizeBytes := 0

/-- An empty file. -/
def emptyFile : BlendFile where
  objects := []
  collections := []
  actions := []

/-- An env oracle where only the os.path.getsize call raises. -/
def envGetsizeOrc : EnvOracle where
  loadRaises := false
  exportRaises := false
  getsizeRaises := true
  sizeBytes := 0

/-- A local scene object named Cube. -/
def orphanDemoA : Obj where
  name := "Cube"
  type := ObjType.MESH
  hide_viewport := false
  hide_render := false
  modifiers := []
  library := none
  in_scene := true

/-- An orphaned duplicate Cube.001, not in the scene. -/
def orphanDemoB : Obj where
  name := "Cube.001"
  type := ObjType.MESH
  hide_viewport := false
  hide_render := false
  modifiers := []
  library := some "env.blend"
  in_scene := false

def orphanDemoObjs : List Obj := [orphanDemoA, orphanDemoB]

/-- A small file with one skinned mesh, a rig, a light, a hidden camera,
one WORKING collection and one action. -/
def demoFile : BlendFile where
  objects := [
    { name := "Body", type := ObjType.MESH, hide_viewport := false, hide_render := false,
      modifiers := [{ type := ModifierType.ARMATURE }], library := none, in_scene := true },
    { name := "Rig", type := ObjType.ARMATURE, hide_viewport := false, hide_render := false,
      modifiers := [], library := none, in_scene := true },
    { name := "Sun", type := ObjType.LIGHT, hide_viewport := false, hide_render := false,
      modifiers := [], library := none, in_scene := true },
    { name := "Cam", type := ObjType.CAMERA, hide_viewport := true, hide_render := false,
      modifiers := [], library := none, in_scene := true }]
  collections := [{ name := "WORKING extras", hide_viewport := false, hide_render := false }]
  actions := ["Idle"]

/-- demoFile with the same objects but no collections. -/
def demoFileNoCols : BlendFile where
  objects := demoFile.objects
  collections := []
  actions := ["Idle"]

/- Helper lemmas about the orphan-removal loop. -/

theorem bool_eq_of_iff {a b : Bool} (h : a = true ↔ b = true) : a = b := by
  cases a <;> cases b <;> simp_all

theorem orphanStep_sublist (scene : List String) (cur : List Obj) (ob : Obj) :
    (orphanStep scene cur ob).Sublist cur := by
  unfold orphanStep
  split
  · exact List.Sublist.refl _
  · split
    · exact List.erase_sublist _ _
    · exact List.Sublist.refl _

theorem orphanFold_sublist (scene : List String) :
    ∀ (rest cur : List Obj), (List.foldl (orphanStep scene) cur rest).Sublist cur
  | [], _ => List.Sublist.refl _
  | x :: xs, cur =>
    (orphanFold_sublist scene xs (orphanStep scene cur x)).trans (orphanStep_sublist scene cur x)

theorem orphanStep_keeps_scene (scene : List String) (cur : List Obj) (ob x : Obj)
    (hx : x ∈ cur) (hs : x.name ∈ scene) : x ∈ orphanStep scene cur ob := by
  unfold orphanStep
  split
  · exact hx
  · next hnc =>
    split
    · have hne : x ≠ ob := by
        intro he
        exact hnc (he ▸ hs)
      exact (List.mem_erase_of_ne hne).mpr hx
    · exact hx

theorem orphanFold_keeps_scene (scene : List String) :
    ∀ (rest cur : List Obj) (x : Obj), x ∈ cur → x.name ∈ scene →
      x ∈ List.foldl (orphanStep scene) cur rest
  | [], _, _, hx, _ => hx
  | y :: ys, cur, x, hx, hs =>
    orphanFold_keeps_scene scene ys _ x (orphanStep_keeps_scene scene cur y x hx hs) hs

theorem orphan_any_eq (scene : List String) (objs cur : List Obj) (base : String)
    (hsub : cur.Sublist objs)
    (hkeep : ∀ x ∈ objs, x.name ∈ scene → x ∈ cur) :
    cur.any (orphanWitness base scene) = objs.any (orphanWitness base scene) := by
  apply bool_eq_of_iff
  simp only [List.any_eq_true]
  constructor
  · rintro ⟨w, hw, hwit⟩
    exact ⟨w, hsub.subset hw, hwit⟩
  · rintro ⟨w, hw, hwit⟩
    refine ⟨w, hkeep w hw ?_, hwit⟩
    have h2 := (Bool.and_eq_true .. ▸ hwit).2
    exact of_decide_eq_true h2

theorem erase_eq_filter_of_names_nodup :
    ∀ (l : List Obj), (l.map Obj.name).Nodup → ∀ x : Obj,
      l.erase x = l.filter (fun ob => !(ob == x))
  | [], _, x => rfl
  | a :: l, hnd, x => by
    have hnd' := hnd
    rw [List.map_cons, List.nodup_cons] at hnd'
    by_cases hax : a = x
    · subst hax
      rw [List.erase_cons_head]
      have hall : ∀ ob ∈ l, (!(ob == a)) = true := by
        intro ob hob
        have hn : ob.name ≠ a.name := by
          intro he
          exact hnd'.1 (he ▸ List.mem_map_of_mem Obj.name hob)
        have hne : ob ≠ a := fun he => hn (he ▸ rfl)
        simp [hne]
      have hfl : List.filter (fun ob => !(ob == a)) l = l := List.filter_eq_self.mpr hall
      simp [List.filter_cons, hfl]
    · rw [List.erase_cons_tail (by simp [hax]), List.filter_cons,
        if_pos (show (!(a == x)) = true by simp [hax])]
      rw [erase_eq_filter_of_names_nodup l hnd'.2 x]

theorem orphanFold_eq_filter (scene : List String) (objs : List Obj)
    (hnd : (objs.map Obj.name).Nodup) :
    ∀ (rest cur : List Obj), cur.Sublist objs →
      (∀ x ∈ objs, x.name ∈ scene → x ∈ cur) →
      List.foldl (orphanStep scene) cur rest =
        cur.filter (fun ob => !(orphanCond scene objs ob && decide (ob ∈ rest)))
  | [], cur, _, _ => by
    simp
  | x :: xs, cur, hsub, hkeep => by
    rw [List.foldl_cons]
    by_cases hc : x.name ∈ scene
    · have hstep : orphanStep scene cur x = cur := by
        unfold orphanStep
        rw [if_pos hc]
      rw [hstep, orphanFold_eq_filter scene objs hnd xs cur hsub hkeep]
      apply List.filter_congr
      intro ob _
      by_cases hobx : ob = x
      · subst hobx
        have : orphanCond scene objs ob = false := by
          unfold orphanCond
          simp [hc]
        simp [this]
      · simp [List.mem_cons, hobx]
    · by_cases ha : cur.any (orphanWitness (baseNameOf x.name) scene) = true
      · have hcond : orphanCond scene objs x = true := by
          unfold orphanCond
          rw [orphan_any_eq scene objs cur _ hsub hkeep] at ha
          simp [hc, ha]
        have hstep : orphanStep scene cur x = cur.erase x := by
          unfold orphanStep
          rw [if_neg hc, if_pos ha]
        have hsub' : (cur.erase x).Sublist objs := (List.erase_sublist x cur).trans hsub
        have hkeep' : ∀ y ∈ objs, y.name ∈ scene → y ∈ cur.erase x := by
          intro y hy hys
          have hne : y ≠ x := by
            intro he
            exact hc (he ▸ hys)
          exact (List.mem_erase_of_ne hne).mpr (hkeep y hy hys)
        rw [hstep, orphanFold_eq_filter scene objs hnd xs (cur.erase x) hsub' hkeep']
        have hcurnd : (cur.map Obj.name).Nodup := (hsub.map Obj.name).nodup hnd
        rw [erase_eq_filter_of_names_nodup cur hcurnd x, List.filter_filter]
        apply List.filter_congr
        intro ob _
        by_cases hobx : ob = x
        · subst hobx
          simp [hcond]
        · simp [List.mem_cons, hobx]
      · have hanyf : cur.any (orphanWitness (baseNameOf x.name) scene) = false :=
          Bool.eq_false_iff.mpr ha
        rw [orphan_any_eq scene objs cur _ hsub hkeep] at hanyf
        have hcond : orphanCond scene objs x = false := by
          unfold orphanCond
          rw [hanyf]
          simp
        have hstep : orphanStep scene cur x = cur := by
          unfold orphanStep
          rw [if_neg hc, if_neg ha]
        rw [hstep, orphanFold_eq_filter scene objs hnd xs cur hsub hkeep]
        apply List.filter_congr
        intro ob _
        by_cases hobx : ob = x
        · subst hobx
          simp [hcond]
        · simp [List.mem_cons, hobx]

/-- The stateful removal loop equals a filter by the static condition. -/
theorem removeOrphanDup_eq_filter (scene : List String) (objs : List Obj)
    (hnd : (objs.map Obj.name).Nodup) :
    removeOrphanDup scene objs = objs.filter (fun ob => !(orphanCond scene objs ob)) := by
  unfold removeOrphanDup
  rw [orphanFold_eq_filter scene objs hnd objs objs (List.Sublist.refl _) (fun x hx _ => hx)]
  apply List.filter_congr
  intro ob hob
  simp [hob]

/- Run characterizations: export events and outcome as functions of the
oracle (and, for export_char.py, of the skinned-mesh count). -/

theorem env_run_characterization (f : BlendFile) (o : EnvOracle) :
    exportEvents (export_environment f o).trace =
      (if o.loadRaises then [] else [envGltfConfig])
  ∧ (export_environment f o).outcome =
      (if o.loadRaises then Outcome.exited 1
       else if o.exportRaises then Outcome.exited 1
       else if o.getsizeRaises then Outcome.uncaughtEsc
       else Outcome.exited 0) := by
  rcases o with ⟨lr, er, gr, sb⟩
  cases lr <;> cases er <;> cases gr <;> simp [export_environment, exportEvents]

theorem rt_run_characterization (f : BlendFile) (o : RtOracle) :
    exportEvents (export_rt_scene f o).trace =
      (if o.readHomeRaises then []
       else if !o.fileExists then []
       else if o.loadRaises then []
       else if !o.outputDirExists && o.mkdirRaises then []
       else [rtGltfConfig])
  ∧ (export_rt_scene f o).outcome =
      (if o.readHomeRaises then Outcome.exited 1
       else if !o.fileExists then Outcome.exited 1
       else if o.loadRaises then Outcome.exited 1
       else if !o.outputDirExists && o.mkdirRaises then Outcome.exited 1
       else if o.exportRaises then Outcome.exited 1
       else if o.getsizeRaises then Outcome.exited 1
       else Outcome.exited 0) := by
  rcases o with ⟨rh, fe, lr, mr, de, er, gr, sb⟩
  cases rh <;> cases fe <;> cases lr <;> cases mr <;> cases de <;> cases er <;> cases gr <;>
    simp [export_rt_scene, rtBody, guardedMain, exportEvents] <;>
    (try (intro a ha; split at ha <;> cases a <;> simp_all))

theorem char_run_characterization (f : BlendFile) (o : CharOracle) :
    exportEvents (export_character f o).trace =
      (if o.loadRaises then []
       else if (f.objects.filter charIsSkinned).length = 0 then []
       else [charGltfConfig])
  ∧ (export_character f o).outcome =
      (if o.loadRaises then Outcome.exited 1
       else if (f.objects.filter charIsSkinned).length = 0 then Outcome.exited 1
       else if o.exportRaises then Outcome.exited 1
       else if o.getsizeRaises then Outcome.exited 1
       else Outcome.exited 0) := by
  rcases o with ⟨lr, er, gr, sb⟩
  by_cases hs : (f.objects.filter charIsSkinned).length = 0 <;>
    cases lr <;> cases er <;> cases gr <;>
      simp [export_character, charBody, guardedMain, exportEvents, hs]

theorem isMesh_eq : isMesh = fun ob => ob.type == ObjType.MESH := rfl

theorem isLight_eq : isLight = fun ob => ob.type == ObjType.LIGHT := rfl

theorem isCamera_eq : isCamera = fun ob => ob.type == ObjType.CAMERA := rfl

theorem isArmatureObj_eq : isArmatureObj = fun ob => ob.type == ObjType.ARMATURE := rfl

/-- Claim C2: in each script's collection-hiding step, for every collection
in the loaded file, both the collection's hide_viewport and hide_render
flags are set to True exactly when the collection's name matches that
script's working-collection substring test ("WORKING" in name.upper() for
export_env.py, "Working" in name for export_rt_scene.py), and every
collection whose name does not match is left entirely unchanged.  The
hiding step applies this elementwise to the whole collection list. -/
theorem C2_hide_working_collections :
    (∀ cols : List Collection,
        hideEnvCollections cols = cols.map hideEnvStep
          ∧ hideRtCollections cols = cols.map hideRtStep)
  ∧ ∀ c : Collection,
      (envWorkingMatch c.name = true →
        (hideEnvStep c).hide_viewport = true ∧ (hideEnvStep c).hide_render = true
          ∧ (hideEnvStep c).name = c.name)
    ∧ (envWorkingMatch c.name = false → hideEnvStep c = c)
    ∧ (rtWorkingMatch c.name = true →
        (hideRtStep c).hide_viewport = true ∧ (hideRtStep c).hide_render = true
          ∧ (hideRtStep c).name = c.name)
    ∧ (rtWorkingMatch c.name = false → hideRtStep c = c) := by
  refine ⟨fun cols => ⟨rfl, rfl⟩, fun c => ⟨?_, ?_, ?_, ?_⟩⟩
  · intro h
    simp [hideEnvStep, h]
  · intro h
    simp [hideEnvStep, h]
  · intro h
    simp [hideRtStep, h]
  · intro h
    simp [hideRtStep, h]

/-- Witness for C2: a matching collection gets both flags set; a
non-matching one is untouched. -/
theorem C2_hide_working_collections_witness :
    (hideEnvStep { name := "Env Working Set", hide_viewport := false, hide_render := false }).hide_viewport = true
  ∧ hideRtStep { name := "Lights", hide_viewport := false, hide_render := true } =
      { name := "Lights", hide_viewport := false, hide_render := true } :=
  ⟨((C2_hide_working_collections.2
      { name := "Env Working Set", hide_viewport := false, hide_render := false }).1 (by decide)).1,
    (C2_hide_working_collections.2
      { name := "Lights", hide_viewport := false, hide_render := true }).2.2.2 (by decide)⟩

/-- Claim C3: in export_rt_scene.py's orphaned-duplicate removal step, an
object is removed from bpy.data.objects exactly when its name is not among
the current scene's object names and some object's name both starts with
the removed object's base name (the part before the first dot) and is
among the scene's object names.  Object names in bpy.data are unique,
which the Nodup hypothesis records. -/
theorem C3_orphan_removal_characterization (objs : List Obj)
    (hnd : (objs.map Obj.name).Nodup) (ob : Obj) (hmem : ob ∈ objs) :
    ob ∉ removeOrphanDup (sceneNamesOf objs) objs ↔
      (ob.name ∉ sceneNamesOf objs ∧
        ∃ w ∈ objs, pyStartsWith w.name (baseNameOf ob.name) = true
          ∧ w.name ∈ sceneNamesOf objs) := by
  have key : ob ∉ removeOrphanDup (sceneNamesOf objs) objs ↔
      orphanCond (sceneNamesOf objs) objs ob = true := by
    rw [removeOrphanDup_eq_filter _ _ hnd]
    simp [List.mem_filter, hmem]
  rw [key]
  unfold orphanCond orphanWitness
  simp [List.any_eq_true, Bool.and_eq_true, and_assoc]

/-- Witness for C3: Cube.001 is not in the scene while Cube is, so the
loop removes Cube.001. -/
theorem C3_orphan_removal_witness :
    orphanDemoB ∉ removeOrphanDup (sceneNamesOf orphanDemoObjs) orphanDemoObjs :=
  (C3_orphan_removal_characterization orphanDemoObjs (by decide) orphanDemoB (by decide)).mpr
    ⟨by decide, ⟨orphanDemoA, by decide, by decide, by decide⟩⟩

/-- Claim C9: the orphaned-duplicate removal step never removes an object
of the current scene: every object whose name is among the scene's object
names is still present afterwards. -/
theorem C9_scene_objects_preserved (objs : List Obj) (ob : Obj)
    (hmem : ob ∈ objs) (hscene : ob.name ∈ sceneNamesOf objs) :
    ob ∈ removeOrphanDup (sceneNamesOf objs) objs := by
  unfold removeOrphanDup
  exact orphanFold_keeps_scene (sceneNamesOf objs) objs objs ob hmem hscene

/-- Witness for C9: the in-scene Cube survives the removal step. -/
theorem C9_scene_objects_preserved_witness :
    orphanDemoA ∈ removeOrphanDup (sceneNamesOf orphanDemoObjs) orphanDemoObjs :=
  C9_scene_objects_preserved orphanDemoObjs orphanDemoA (by decide) (by decide)

/-- Claim C10: if the loaded character file has no object of type MESH
with an ARMATURE modifier, export_char.py exits with status 1 before the
export operation is ever invoked, so no GLB is written. -/
theorem C10_no_skinned_abort (f : BlendFile) (o : CharOracle)
    (hload : o.loadRaises = false)
    (hskin : (f.objects.filter charIsSkinned).length = 0) :
    (export_character f o).outcome = Outcome.exited 1
  ∧ exportEvents (export_character f o).trace = [] := by
  constructor
  · rw [(char_run_characterization f o).2, if_neg (by simp [hload]), if_pos hskin]
  · rw [(char_run_characterization f o).1, if_neg (by simp [hload]), if_pos hskin]

/-- Witness for C10: on an empty character file the run exits 1 and the
export is never invoked. -/
theorem C10_no_skinned_abort_witness :
    (export_character emptyFile ⟨false, false, false, 0⟩).outcome = Outcome.exited 1
  ∧ exportEvents (export_character emptyFile ⟨false, false, false, 0⟩).trace = [] :=
  C10_no_skinned_abort emptyFile ⟨false, false, false, 0⟩ (by decide) (by decide)

/-- `obj.modifiers and any(m.type == 'ARMATURE' ...)` equals plain
`any(m.type == 'ARMATURE' ...)`: a list with a true element is nonempty. -/
theorem charIsSkinned_eq (ob : Obj) :
    charIsSkinned ob =
      (ob.type == ObjType.MESH
        && ob.modifiers.any (fun m => m.type == ModifierType.ARMATURE)) := by
  unfold charIsSkinned isMesh hasArmatureMod
  cases h : ob.modifiers with
  | nil => simp [h]
  | cons m ms => simp [h]

/-- Claim C4: each script invokes the GLB export at most once, exactly once
on runs that exit 0, and every invocation passes that script's constant
configuration record (independent of the loaded file), which in all three
scripts sets export_format to GLB, use_visible to true and Draco
compression off. -/
theorem C4_single_fixed_export (f : BlendFile) (oE : EnvOracle) (oR : RtOracle) (oC : CharOracle) :
    ((exportEvents (export_environment f oE).trace).length ≤ 1
      ∧ ((export_environment f oE).outcome = Outcome.exited 0 →
          exportEvents (export_environment f oE).trace = [envGltfConfig])
      ∧ (∀ c ∈ exportEvents (export_environment f oE).trace, c = envGltfConfig))
  ∧ ((exportEvents (export_rt_scene f oR).trace).length ≤ 1
      ∧ ((export_rt_scene f oR).outcome = Outcome.exited 0 →
          exportEvents (export_rt_scene f oR).trace = [rtGltfConfig])
      ∧ (∀ c ∈ exportEvents (export_rt_scene f oR).trace, c = rtGltfConfig))
  ∧ ((exportEvents (export_character f oC).trace).length ≤ 1
      ∧ ((export_character f oC).outcome = Outcome.exited 0 →
          exportEvents (export_character f oC).trace = [charGltfConfig])
      ∧ (∀ c ∈ exportEvents (export_character f oC).trace, c = charGltfConfig))
  ∧ (envGltfConfig.export_format = "GLB" ∧ envGltfConfig.use_visible = true
      ∧ envGltfConfig.export_draco_mesh_compression_enable = false
      ∧ rtGltfConfig.export_format = "GLB" ∧ rtGltfConfig.use_visible = true
      ∧ rtGltfConfig.export_draco_mesh_compression_enable = false
      ∧ charGltfConfig.export_format = "GLB" ∧ charGltfConfig.use_visible = true
      ∧ charGltfConfig.export_draco_mesh_compression_enable = false) := by
  have henv := env_run_characterization f oE
  have hrt := rt_run_characterization f oR
  have hch := char_run_characterization f oC
  refine ⟨⟨?_, ?_, ?_⟩, ⟨?_, ?_, ?_⟩, ⟨?_, ?_, ?_⟩,
    rfl, rfl, rfl, rfl, rfl, rfl, rfl, rfl, rfl⟩
  · rw [henv.1]
    split <;> simp
  · intro h0
    rw [henv.2] at h0
    rw [henv.1]
    split at h0 <;> simp_all
  · rw [henv.1]
    split <;> simp
  · rw [hrt.1]
    repeat' split
    all_goals simp
  · intro h0
    rw [hrt.2] at h0
    rw [hrt.1]
    repeat' split at h0
    all_goals simp_all
  · rw [hrt.1]
    repeat' split
    all_goals simp
  · rw [hch.1]
    repeat' split
    all_goals simp
  · intro h0
    rw [hch.2] at h0
    rw [hch.1]
    repeat' split at h0
    all_goals simp_all
  · rw [hch.1]
    repeat' split
    all_goals simp

/-- Witness for C4: a clean export_env run exits 0 and performs exactly
one export, carrying the constant configuration. -/
theorem C4_single_fixed_export_witness :
    exportEvents (export_environment emptyFile ⟨false, false, false, 0⟩).trace = [envGltfConfig] :=
  (C4_single_fixed_export emptyFile ⟨false, false, false, 0⟩ rtDemoOrc
    ⟨false, false, false, 0⟩).1.2.1 (by decide)

/-- Claim C6: export_env.py prints mesh, light and camera counts equal to
the number of loaded objects of type MESH, LIGHT and CAMERA respectively,
and export_char.py prints a skinned-mesh count (objects of type MESH with
at least one ARMATURE modifier), an armature count and an action count. -/
theorem C6_diagnostic_counts (f : BlendFile) (oE : EnvOracle) (oC : CharOracle)
    (hE : oE.loadRaises = false) (hC : oC.loadRaises = false) :
    Event.printCount "Meshes" ((f.objects.filter (fun ob => ob.type == ObjType.MESH)).length)
        ∈ (export_environment f oE).trace
  ∧ Event.printCount "Lights" ((f.objects.filter (fun ob => ob.type == ObjType.LIGHT)).length)
        ∈ (export_environment f oE).trace
  ∧ Event.printCount "Cameras" ((f.objects.filter (fun ob => ob.type == ObjType.CAMERA)).length)
        ∈ (export_environment f oE).trace
  ∧ Event.printCount "SkinnedMeshes"
        ((f.objects.filter (fun ob => ob.type == ObjType.MESH
            && ob.modifiers.any (fun m => m.type == ModifierType.ARMATURE))).length)
        ∈ (export_character f oC).trace
  ∧ Event.printCount "Armatures" ((f.objects.filter (fun ob => ob.type == ObjType.ARMATURE)).length)
        ∈ (export_character f oC).trace
  ∧ Event.printCount "Animations" f.actions.length ∈ (export_character f oC).trace := by
  have hskin : f.objects.filter charIsSkinned =
      f.objects.filter (fun ob => ob.type == ObjType.MESH
        && ob.modifiers.any (fun m => m.type == ModifierType.ARMATURE)) :=
    List.filter_congr (fun ob _ => charIsSkinned_eq ob)
  refine ⟨?_, ?_, ?_, ?_, ?_, ?_⟩
  · cases hx : oE.exportRaises <;> cases hg : oE.getsizeRaises <;>
      simp [export_environment, hE, hx, hg, isMesh_eq]
  · cases hx : oE.exportRaises <;> cases hg : oE.getsizeRaises <;>
      simp [export_environment, hE, hx, hg, isLight_eq]
  · cases hx : oE.exportRaises <;> cases hg : oE.getsizeRaises <;>
      simp [export_environment, hE, hx, hg, isCamera_eq]
  · rw [← hskin]
    by_cases hs : (f.objects.filter charIsSkinned).length = 0 <;>
      cases hcx : oC.exportRaises <;> cases hcg : oC.getsizeRaises <;>
      simp [export_character, charBody, guardedMain, hC, hs, hcx, hcg]
  · by_cases hs : (f.objects.filter charIsSkinned).length = 0 <;>
      cases hcx : oC.exportRaises <;> cases hcg : oC.getsizeRaises <;>
      simp [export_character, charBody, guardedMain, hC, hs, hcx, hcg, isArmatureObj_eq]
  · by_cases hs : (f.objects.filter charIsSkinned).length = 0 <;>
      cases hcx : oC.exportRaises <;> cases hcg : oC.getsizeRaises <;>
      simp [export_character, charBody, guardedMain, hC, hs, hcx, hcg]

/-- Witness for C6: the counts on demoFile. -/
theorem C6_diagnostic_counts_witness :
    Event.printCount "Meshes"
        ((demoFile.objects.filter (fun ob => ob.type == ObjType.MESH)).length)
      ∈ (export_environment demoFile ⟨false, false, false, 0⟩).trace :=
  (C6_diagnostic_counts demoFile ⟨false, false, false, 0⟩ ⟨false, false, false, 0⟩ rfl rfl).1

/-- Claim C7: after a successful export each script reads the output
file's size in bytes and prints it divided by 1024*1024 (modelled exactly
over ℚ), formatted to two decimal places. -/
theorem C7_size_readout (f : BlendFile) (oE : EnvOracle) (oR : RtOracle) (oC : CharOracle)
    (hE1 : oE.loadRaises = false) (hE2 : oE.exportRaises = false) (hE3 : oE.getsizeRaises = false)
    (hR1 : oR.readHomeRaises = false) (hR2 : oR.fileExists = true) (hR3 : oR.loadRaises = false)
    (hR4 : oR.mkdirRaises = false) (hR5 : oR.exportRaises = false) (hR6 : oR.getsizeRaises = false)
    (hC1 : oC.loadRaises = false) (hC2 : oC.exportRaises = false) (hC3 : oC.getsizeRaises = false)
    (hCs : (f.objects.filter charIsSkinned).length ≠ 0) :
    Event.sizeReadout ((oE.sizeBytes : Rat) / (1024 * 1024)) 2 ∈ (export_environment f oE).trace
  ∧ Event.sizeReadout ((oR.sizeBytes : Rat) / (1024 * 1024)) 2 ∈ (export_rt_scene f oR).trace
  ∧ Event.sizeReadout ((oC.sizeBytes : Rat) / (1024 * 1024)) 2 ∈ (export_character f oC).trace := by
  refine ⟨?_, ?_, ?_⟩
  · simp [export_environment, hE1, hE2, hE3, mbOfBytes]
  · simp [export_rt_scene, rtBody, guardedMain, hR1, hR2, hR3, hR4, hR5, hR6, mbOfBytes]
  · simp [export_character, charBody, guardedMain, hC1, hC2, hC3, hCs, mbOfBytes]

/-- Witness for C7: a 1 MiB output file is reported as 1048576/1048576. -/
theorem C7_size_readout_witness :
    Event.sizeReadout (((1048576 : Nat) : Rat) / (1024 * 1024)) 2
      ∈ (export_environment demoFile ⟨false, false, false, 1048576⟩).trace :=
  (C7_size_readout demoFile ⟨false, false, false, 1048576⟩ rtDemoOrc ⟨false, false, false, 0⟩
    rfl rfl rfl rfl rfl rfl rfl rfl rfl rfl rfl rfl (by decide)).1

/-- Claim C8: export_env.py's "Will export" counts are computed over the
object list captured before the collection-hiding step and test only each
object's own hide_viewport and hide_render flags; the printed counts of a
run are therefore identical for any two files with the same objects,
regardless of their collections (in particular, identical to a run in
which no collection is hidden). -/
theorem C8_will_export_frame (f g : BlendFile) (o : EnvOracle)
    (hobj : f.objects = g.objects) (hload : o.loadRaises = false) :
    Event.printCount "Will export objects"
        ((f.objects.filter (fun ob => !ob.hide_viewport && !ob.hide_render)).length)
        ∈ (export_environment f o).trace
  ∧ Event.printCount "Will export meshes"
        (((f.objects.filter (fun ob => !ob.hide_viewport && !ob.hide_render)).filter
            (fun ob => ob.type == ObjType.MESH)).length)
        ∈ (export_environment f o).trace
  ∧ countEvents (export_environment f o).trace = countEvents (export_environment g o).trace := by
  refine ⟨?_, ?_, ?_⟩
  · cases hx : o.exportRaises <;> cases hg : o.getsizeRaises <;>
      simp [export_environment, hload, hx, hg]
  · cases hx : o.exportRaises <;> cases hg : o.getsizeRaises <;>
      simp [export_environment, hload, hx, hg, isMesh_eq]
  · cases hx : o.exportRaises <;> cases hg : o.getsizeRaises <;>
      simp [export_environment, hload, hx, hg, countEvents, isCountEvt, hobj]

/-- Witness for C8: demoFile and its collection-free copy print the same
counts. -/
theorem C8_will_export_frame_witness :
    countEvents (export_environment demoFile ⟨false, false, false, 0⟩).trace =
      countEvents (export_environment demoFileNoCols ⟨false, false, false, 0⟩).trace :=
  (C8_will_export_frame demoFile demoFileNoCols ⟨false, false, false, 0⟩ rfl rfl).2.2

/-- Claim C1 is false as stated: in export_env.py the `__main__` block has
no exception handler, so when the os.path.getsize call (line 86) raises
after a successful export, the exception is NOT caught by the script and
the script prints no error message (the interpreter reports it and exits
with status 1). -/
theorem C1_counterexample :
    (export_environment emptyFile envGetsizeOrc).outcome = Outcome.uncaughtEsc
  ∧ (export_environment emptyFile envGetsizeOrc).trace.all (fun e => !isErrEvt e) = true := by
  decide

/-- Claim C1 (amended): export_rt_scene.py and export_char.py catch every
exception raised in their bodies via the blanket handler in `__main__`,
print an error and exit with status 1; export_env.py catches only the
exceptions of its file-load and export calls (printing an error and
exiting 1), while an exception raised at its file-size readout escapes the
script uncaught (the interpreter still terminates the process with status
1).  A run in which no host call raises an exception exits with status 0,
except that export_char.py exits 1 when the file has no skinned mesh and
export_rt_scene.py exits 1 when the scene file does not exist. -/
theorem C1_error_handling_amended (f : BlendFile) (oE : EnvOracle) (oR : RtOracle) (oC : CharOracle) :
    ((export_rt_scene f oR).outcome ≠ Outcome.uncaughtEsc)
  ∧ ((export_character f oC).outcome ≠ Outcome.uncaughtEsc)
  ∧ ((rtBody f oR).2 = BodyOut.raisedExc →
      (export_rt_scene f oR).outcome = Outcome.exited 1
        ∧ Event.printErr "Unexpected error" ∈ (export_rt_scene f oR).trace)
  ∧ ((charBody f oC).2 = BodyOut.raisedExc →
      (export_character f oC).outcome = Outcome.exited 1
        ∧ Event.printErr "Unexpected error" ∈ (export_character f oC).trace)
  ∧ (oE.loadRaises = true →
      (export_environment f oE).outcome = Outcome.exited 1
        ∧ Event.printErr "Error loading file" ∈ (export_environment f oE).trace)
  ∧ (oE.loadRaises = false → oE.exportRaises = true →
      (export_environment f oE).outcome = Outcome.exited 1
        ∧ Event.printErr "Export failed" ∈ (export_environment f oE).trace)
  ∧ ((export_environment f oE).outcome = Outcome.uncaughtEsc ↔
      (oE.loadRaises = false ∧ oE.exportRaises = false ∧ oE.getsizeRaises = true))
  ∧ (oE.loadRaises = false → oE.exportRaises = false → oE.getsizeRaises = false →
      (export_environment f oE).outcome = Outcome.exited 0)
  ∧ (oR.readHomeRaises = false → oR.fileExists = true → oR.loadRaises = false →
      oR.mkdirRaises = false → oR.exportRaises = false → oR.getsizeRaises = false →
      (export_rt_scene f oR).outcome = Outcome.exited 0)
  ∧ (oR.readHomeRaises = false → oR.fileExists = false →
      (export_rt_scene f oR).outcome = Outcome.exited 1)
  ∧ (oC.loadRaises = false → oC.exportRaises = false → oC.getsizeRaises = false →
      ((export_character f oC).outcome = Outcome.exited 0 ↔
        (f.objects.filter charIsSkinned).length ≠ 0))
  ∧ Outcome.uncaughtEsc.exitStatus = 1 := by
  have hrt := (rt_run_characterization f oR).2
  have hch := (char_run_characterization f oC).2
  have henv := (env_run_characterization f oE).2
  refine ⟨?_, ?_, ?_, ?_, ?_, ?_, ?_, ?_, ?_, ?_, ?_, rfl⟩
  · rw [hrt]
    repeat' split
    all_goals simp
  · rw [hch]
    repeat' split
    all_goals simp
  · intro hr
    constructor
    · simp [export_rt_scene, guardedMain, hr]
    · simp [export_rt_scene, guardedMain, hr]
  · intro hr
    constructor
    · simp [export_character, guardedMain, hr]
    · simp [export_character, guardedMain, hr]
  · intro hl
    constructor
    · rw [henv, if_pos hl]
    · simp [export_environment, hl]
  · intro hl hx
    constructor
    · rw [henv, if_neg (by simp [hl]), if_pos hx]
    · simp [export_environment, hl, hx]
  · rw [henv]
    cases hl : oE.loadRaises <;> cases hx : oE.exportRaises <;>
      cases hg : oE.getsizeRaises <;> simp
  · intro h1 h2 h3
    rw [henv, if_neg (by simp [h1]), if_neg (by simp [h2]), if_neg (by simp [h3])]
  · intro h1 h2 h3 h4 h5 h6
    rw [hrt]
    simp [h1, h2, h3, h4, h5, h6]
  · intro h1 h2
    rw [hrt]
    simp [h1, h2]
  · intro h1 h2 h3
    rw [hch]
    by_cases hs : (f.objects.filter charIsSkinned).length = 0 <;>
      simp [h1, h2, h3, hs]

/-- Witness for the amended C1: a run whose read_homefile call raises is
caught by the blanket handler, prints an error and exits 1. -/
theorem C1_error_handling_amended_witness :
    (export_rt_scene emptyFile ⟨true, true, false, false, true, false, false, 0⟩).outcome =
      Outcome.exited 1
  ∧ Event.printErr "Unexpected error" ∈
      (export_rt_scene emptyFile ⟨true, true, false, false, true, false, false, 0⟩).trace :=
  (C1_error_handling_amended emptyFile ⟨false, false, false, 0⟩
    ⟨true, true, false, false, true, false, false, 0⟩ ⟨false, false, false, 0⟩).2.2.1 (by decide)

/-- Claim C5 is false as stated: export_rt_scene.py performs its
collection-visibility toggle immediately after the file load and BEFORE
all of its diagnostic count prints.  On a file with a "Working" collection
the toggle event (which actually hides a collection) precedes every count
event of the trace. -/
theorem C5_counterexample :
    Event.hideCollections ["Working"] ∈ (export_rt_scene rtDemoFile rtDemoOrc).trace
  ∧ (export_rt_scene rtDemoFile rtDemoOrc).trace.findIdx isHideColEvt <
      (export_rt_scene rtDemoFile rtDemoOrc).trace.findIdx isCountEvt
  ∧ (export_rt_scene rtDemoFile rtDemoOrc).trace.findIdx isCountEvt <
      (export_rt_scene rtDemoFile rtDemoOrc).trace.length := by
  decide

/-- Claim C5 (amended): on clean runs, export_env.py performs load, then
the mesh/light/camera diagnostic counts, then the collection toggle, then
the will-export counts, then the single export, then the size readout;
export_rt_scene.py performs load, then the collection toggle (before all
of its counts), then its counts, then the export, then the size readout
immediately after; export_char.py has no collection-toggle step at all and
performs load, counts, export, size readout. -/
theorem C5_step_order_amended (f : BlendFile) (oE : EnvOracle) (oR : RtOracle) (oC : CharOracle)
    (hE1 : oE.loadRaises = false) (hE2 : oE.exportRaises = false) (hE3 : oE.getsizeRaises = false)
    (hR1 : oR.readHomeRaises = false) (hR2 : oR.fileExists = true) (hR3 : oR.loadRaises = false)
    (hR4 : oR.mkdirRaises = false) (hR5 : oR.outputDirExists = true)
    (hR6 : oR.exportRaises = false) (hR7 : oR.getsizeRaises = false)
    (hC1 : oC.loadRaises = false) (hC2 : oC.exportRaises = false) (hC3 : oC.getsizeRaises = false)
    (hC4 : (f.objects.filter charIsSkinned).length ≠ 0) :
    ((export_environment f oE).trace.findIdx isLoadEvt = 0
      ∧ (export_environment f oE).trace.findIdx isCountEvt = 1
      ∧ (export_environment f oE).trace.findIdx isHideColEvt = 4
      ∧ (export_environment f oE).trace.findIdx isWillExportEvt = 5
      ∧ (export_environment f oE).trace.findIdx isExportEvt = 7
      ∧ (export_environment f oE).trace.findIdx isSizeEvt = 8)
  ∧ ((export_rt_scene f oR).trace.take 3 =
        [Event.readHome, Event.loadFile RT_SCENE_FILE,
          Event.hideCollections (rtHiddenNames f.collections)]
      ∧ countEvents ((export_rt_scene f oR).trace.take 3) = []
      ∧ (export_rt_scene f oR).trace.findIdx isHideColEvt <
          (export_rt_scene f oR).trace.findIdx isCountEvt
      ∧ (export_rt_scene f oR).trace.findIdx isCountEvt <
          (export_rt_scene f oR).trace.findIdx isExportEvt
      ∧ (export_rt_scene f oR).trace.findIdx isSizeEvt =
          (export_rt_scene f oR).trace.findIdx isExportEvt + 1)
  ∧ ((export_character f oC).trace.all (fun e => !isHideColEvt e) = true
      ∧ (export_character f oC).trace.findIdx isLoadEvt = 0
      ∧ (export_character f oC).trace.findIdx isCountEvt = 1
      ∧ (export_character f oC).trace.findIdx isExportEvt = 4
      ∧ (export_character f oC).trace.findIdx isSizeEvt = 5) := by
  have hb : ¬ (∀ a ∈ f.objects, charIsSkinned a = false) := by
    intro hall
    apply hC4
    simp only [List.length_eq_zero, List.filter_eq_nil_iff]
    intro a ha
    simp [hall a ha]
  refine ⟨⟨?_, ?_, ?_, ?_, ?_, ?_⟩, ⟨?_, ?_, ?_, ?_, ?_⟩, ⟨?_, ?_, ?_, ?_, ?_⟩⟩
  · simp [export_environment, hE1, hE2, hE3, List.findIdx_cons, isLoadEvt]
  · simp [export_environment, hE1, hE2, hE3, List.findIdx_cons, isCountEvt]
  · simp [export_environment, hE1, hE2, hE3, List.findIdx_cons, isHideColEvt]
  · simp [export_environment, hE1, hE2, hE3, List.findIdx_cons, isWillExportEvt, isCountEvt]
  · simp [export_environment, hE1, hE2, hE3, List.findIdx_cons, isExportEvt]
  · simp [export_environment, hE1, hE2, hE3, List.findIdx_cons, isSizeEvt]
  · simp [export_rt_scene, rtBody, guardedMain, hR1, hR2, hR3, hR4, hR5, hR6, hR7]
    split <;> simp
  · simp [export_rt_scene, rtBody, guardedMain, hR1, hR2, hR3, hR4, hR5, hR6, hR7]
    split <;> simp [countEvents, isCountEvt]
  · simp [export_rt_scene, rtBody, guardedMain, hR1, hR2, hR3, hR4, hR5, hR6, hR7]
    split <;> simp [List.findIdx_cons, isHideColEvt, isCountEvt]
  · simp [export_rt_scene, rtBody, guardedMain, hR1, hR2, hR3, hR4, hR5, hR6, hR7]
    split <;> simp [List.findIdx_cons, isCountEvt, isExportEvt]
  · simp [export_rt_scene, rtBody, guardedMain, hR1, hR2, hR3, hR4, hR5, hR6, hR7]
    split <;> simp [List.findIdx_cons, isSizeEvt, isExportEvt]
  · simp [export_character, charBody, guardedMain, hC1, hC2, hC3, if_neg hb, isHideColEvt]
  · simp [export_character, charBody, guardedMain, hC1, hC2, hC3, if_neg hb,
      List.findIdx_cons, isLoadEvt]
  · simp [export_character, charBody, guardedMain, hC1, hC2, hC3, if_neg hb,
      List.findIdx_cons, isCountEvt]
  · simp [export_character, charBody, guardedMain, hC1, hC2, hC3, if_neg hb,
      List.findIdx_cons, isExportEvt, isCountEvt]
  · simp [export_character, charBody, guardedMain, hC1, hC2, hC3, if_neg hb,
      List.findIdx_cons, isSizeEvt, isExportEvt]

/-- Witness for the amended C5: on demoFile the character export event sits
at index 4, after load and the three counts. -/
theorem C5_step_order_amended_witness :
    (export_character demoFile ⟨false, false, false, 0⟩).trace.findIdx isExportEvt = 4 :=
  (C5_step_order_amended demoFile ⟨false, false, false, 0⟩ rtDemoOrc ⟨false, false, false, 0⟩
    rfl rfl rfl rfl rfl rfl rfl rfl rfl rfl rfl rfl rfl (by decide)).2.2.2.2.2.1

end BasedGuide
